import Mathlib

/-!
Shallow embedding of the kube-dns configuration-sync layer:
`Config.Validate` and its three passes (`pkg/dns/config`),
`util.ValidateNameserverIpAndPort` (`pkg/dns/util/util.go`),
`NewConfigSync` and `StartConfigMapSync` (`pkg/dns/config`).

Strings are handled as `List Char`; Go library collaborators
(`net.ParseIP`, `net.SplitHostPort`, `strconv.ParseUint`, `strconv.Atoi`,
`k8s.io/apimachinery` validation) are modelled from their sources or,
where noted, extensionally from their documented input/output behaviour.
-/

set_option maxRecDepth 4000

namespace KubeDNS

/-- Numeric value of a list of decimal digit characters (most significant first). -/
def digitsVal (l : List Char) : Nat :=
  l.foldl (fun a c => a * 10 + (c.toNat - 48)) 0

/-- Numeric value of a list of hexadecimal digit characters (most significant first). -/
def hexDigitVal (c : Char) : Nat :=
  if c.isDigit then c.toNat - 48
  else if 'a' ≤ c ∧ c ≤ 'f' then c.toNat - 'a'.toNat + 10
  else if 'A' ≤ c ∧ c ≤ 'F' then c.toNat - 'A'.toNat + 10
  else 0

def hexVal (l : List Char) : Nat :=
  l.foldl (fun a c => a * 16 + hexDigitVal c) 0

/-- Hexadecimal digit as accepted by Go's `xtoi` (`net/parse.go`). -/
def isHexDigitGo (c : Char) : Bool :=
  c.isDigit || ('a' ≤ c && c ≤ 'f') || ('A' ≤ c && c ≤ 'F')

/-- Lowercase alphanumeric character class `[a-z0-9]` of the DNS-1123 regular
expressions in `k8s.io/apimachinery/pkg/util/validation`. -/
def isLowerAlnum (c : Char) : Bool :=
  ('a' ≤ c && c ≤ 'z') || c.isDigit

/-- Split a list at the first occurrence of `sep`: returns the segment before it
and, when `sep` occurs, the remainder after it. -/
def splitAtFirst (sep : Char) : List Char → List Char × Option (List Char)
  | [] => ([], none)
  | c :: cs =>
    if c = sep then ([], some cs)
    else
      let r := splitAtFirst sep cs
      (c :: r.1, r.2)

/-- `strings.SplitN(s, ":", 2)`: one or two segments, splitting at the first colon. -/
def splitN2Colon (l : List Char) : List (List Char) :=
  match splitAtFirst ':' l with
  | (pre, none) => [pre]
  | (pre, some post) => [pre, post]

/-- States of the matcher for the anchored DNS-1123 subdomain regular expression
`[a-z0-9]([-a-z0-9]*[a-z0-9])?(\.[a-z0-9]([-a-z0-9]*[a-z0-9])?)*`. -/
inductive DnsSt where
  | start
  | inside
  | hyph
deriving DecidableEq

/-- Matcher for the DNS-1123 subdomain regular expression: `start` expects the
first character of a label, `inside` has just read an alphanumeric, `hyph` has
just read a hyphen (a label may not end here). -/
def dnsRun : DnsSt → List Char → Bool
  | .start, [] => false
  | .start, c :: cs => isLowerAlnum c && dnsRun .inside cs
  | .inside, [] => true
  | .inside, c :: cs =>
    if c = '.' then dnsRun .start cs
    else if isLowerAlnum c then dnsRun .inside cs
    else if c = '-' then dnsRun .hyph cs
    else false
  | .hyph, [] => false
  | .hyph, c :: cs =>
    if isLowerAlnum c then dnsRun .inside cs
    else if c = '-' then dnsRun .hyph cs
    else false

/-- `validation.IsDNS1123Subdomain` (k8s.io/apimachinery): no errors iff the
value is at most 253 characters and matches the anchored subdomain regular
expression. -/
def isDNS1123Subdomain (l : List Char) : Bool :=
  l.length ≤ 253 && dnsRun .start l

/-- Extensional model of Go `strconv.ParseUint(s, 10, 16)`: succeeds exactly on
nonempty all-digit strings whose value fits in 16 bits (no sign accepted). -/
def parseUint16 (l : List Char) : Option Nat :=
  if l ≠ [] ∧ l.all Char.isDigit ∧ digitsVal l ≤ 65535 then some (digitsVal l)
  else none

/-- The unsigned-digit core of `strconv.Atoi`: a nonempty all-digit string. -/
def atoiNat (l : List Char) : Option Nat :=
  if l ≠ [] ∧ l.all Char.isDigit then some (digitsVal l) else none

/-- Extensional model of Go `strconv.Atoi` (= `ParseInt(s, 10, 64)`): an
optional sign followed by a nonempty digit string, value within `int64` range. -/
def atoi (l : List Char) : Option Int :=
  if l.head? = some '-' then
    match atoiNat l.tail with
    | some n => if (n : Int) ≤ 2 ^ 63 then some (-(n : Int)) else none
    | none => none
  else if l.head? = some '+' then
    match atoiNat l.tail with
    | some n => if (n : Int) ≤ 2 ^ 63 - 1 then some (n : Int) else none
    | none => none
  else
    match atoiNat l with
    | some n => if (n : Int) ≤ 2 ^ 63 - 1 then some (n : Int) else none
    | none => none

/-- One dotted-decimal field of Go `parseIPv4` (`net/ip.go`): extensional model
of `dtoi` plus the `!ok || n > 0xFF` rejection — the maximal leading digit run
must be nonempty and have value at most 255; returns the value and the rest. -/
def v4Field (s : List Char) : Option (Nat × List Char) :=
  let ds := s.takeWhile Char.isDigit
  if ds = [] then none
  else if digitsVal ds ≤ 255 then some (digitsVal ds, s.dropWhile Char.isDigit)
  else none

/-- A `'.'` followed by a dotted-decimal field, as required for fields 2–4 of
`parseIPv4`. -/
def v4DotField (s : List Char) : Option (Nat × List Char) :=
  match s with
  | '.' :: rest => v4Field rest
  | _ => none

/-- Go `parseIPv4` (`net/ip.go`): four dotted-decimal fields, nothing left
over; yields the four bytes. (This code base predates Go 1.17, so leading
zeros in a field are accepted, as in `dtoi`.) -/
def parseIPv4 (s : List Char) : Option (List Nat) :=
  match v4Field s with
  | none => none
  | some (a, s1) =>
    match v4DotField s1 with
    | none => none
    | some (b, s2) =>
      match v4DotField s2 with
      | none => none
      | some (c, s3) =>
        match v4DotField s3 with
        | none => none
        | some (d, s4) => if s4 = [] then some [a, b, c, d] else none

/-- One hexadecimal chunk of Go `parseIPv6`: extensional model of `xtoi` plus
the `!ok || n > 0xFFFF` rejection — the maximal leading hex-digit run must be
nonempty and have value at most `0xFFFF`; returns the value and the rest. -/
def v6Chunk (s : List Char) : Option (Nat × List Char) :=
  let ds := s.takeWhile isHexDigitGo
  if ds = [] then none
  else if hexVal ds ≤ 0xFFFF then some (hexVal ds, s.dropWhile isHexDigitGo)
  else none

/-- End of Go `parseIPv6`'s main loop: the whole string must be consumed; if
fewer than 16 bytes were produced an ellipsis must be present and is expanded
with zero bytes at its recorded position; a full 16 bytes with an ellipsis is
an error. -/
def v6Finish (s : List Char) (i : Nat) (ell : Option Nat) (acc : List Nat) :
    Option (List Nat) :=
  if s ≠ [] then none
  else if i < 16 then
    match ell with
    | none => none
    | some e => some (acc.take e ++ List.replicate (16 - i) 0 ++ acc.drop e)
  else
    match ell with
    | some _ => none
    | none => some acc

/-- Main loop of Go `parseIPv6` (`net/ip.go`). `i` counts bytes already
produced into `acc`; `ell` is the byte position of a `::` if one was seen.
Each iteration consumes at least two characters, so fuel `s.length + 1`
always suffices. -/
def parseIPv6Go : Nat → List Char → Nat → Option Nat → List Nat → Option (List Nat)
  | 0, _, _, _, _ => none
  | fuel + 1, s, i, ell, acc =>
    if i < 16 then
      match v6Chunk s with
      | none => none
      | some (n, rest) =>
        if rest.head? = some '.' then
          if ell = none ∧ i ≠ 12 then none
          else if i + 4 > 16 then none
          else
            match parseIPv4 s with
            | none => none
            | some b4 => v6Finish [] (i + 4) ell (acc ++ b4)
        else
          match rest with
          | [] => v6Finish [] (i + 2) ell (acc ++ [n / 256, n % 256])
          | [':'] => none
          | ':' :: ':' :: rest2 =>
            if ell.isSome then none
            else if rest2 = [] then
              v6Finish [] (i + 2) (some (i + 2)) (acc ++ [n / 256, n % 256])
            else
              parseIPv6Go fuel rest2 (i + 2) (some (i + 2)) (acc ++ [n / 256, n % 256])
          | ':' :: rest1 => parseIPv6Go fuel rest1 (i + 2) ell (acc ++ [n / 256, n % 256])
          | _ => none
    else v6Finish s i ell acc

/-- Go `parseIPv6`: a leading `::` (possibly the whole string) is handled
before the main loop. -/
def parseIPv6 (s : List Char) : Option (List Nat) :=
  match s with
  | ':' :: ':' :: rest =>
    if rest = [] then some (List.replicate 16 0)
    else parseIPv6Go (rest.length + 1) rest 0 (some 0) []
  | _ => parseIPv6Go (s.length + 1) s 0 none []

/-- Go `splitHostZone` (`net/ipsock.go`): strip an IPv6 zone after the last
`'%'` when that `'%'` is at a positive index; `ParseIP` discards the zone. -/
def splitHostZone (s : List Char) : List Char :=
  match splitAtFirst '%' s.reverse with
  | (_, none) => s
  | (_, some rh) => if rh = [] then s else rh.reverse

/-- First `'.'` or `':'` in the string — the dispatch scan of Go `ParseIP`. -/
def firstSpecial : List Char → Option Char
  | [] => none
  | c :: cs => if c = '.' ∨ c = ':' then some c else firstSpecial cs

/-- Go's 16-byte representation of an IPv4 address (`v4InV6Pfx ++ bytes`). -/
def v4in6 (b : List Nat) : List Nat :=
  [0, 0, 0, 0, 0, 0, 0, 0, 0, 0, 255, 255] ++ b

/-- Go `net.ParseIP`: scan for the first `'.'` or `':'`; a `'.'` selects the
IPv4 parser, a `':'` the IPv6 parser (zone stripped, then discarded), and a
string with neither is not an IP. Addresses are 16-byte lists. -/
def parseIP (s : List Char) : Option (List Nat) :=
  match firstSpecial s with
  | some '.' => (parseIPv4 s).map v4in6
  | some ':' => parseIPv6 (splitHostZone s)
  | _ => none

/-- Go `IP.To4` on a 16-byte address: the last four bytes when the address is
IPv4-mapped, otherwise nothing. -/
def to4 (ip : List Nat) : Option (List Nat) :=
  match ip with
  | [0, 0, 0, 0, 0, 0, 0, 0, 0, 0, 255, 255, a, b, c, d] => some [a, b, c, d]
  | _ => none

/-- Lowercase hexadecimal numeral without leading zeros, as produced by Go's
`appendHex`. -/
def hexStr (n : Nat) : String :=
  (Nat.toDigits 16 n).asString

/-- The eight 16-bit groups of a 16-byte IPv6 address. -/
def v6Groups : List Nat → List Nat
  | hi :: lo :: rest => (hi * 256 + lo) :: v6Groups rest
  | _ => []

/-- Length of the leading run of zero groups. -/
def zeroRun : List Nat → Nat
  | 0 :: rest => 1 + zeroRun rest
  | _ => 0

/-- The leftmost strictly-longest run of zero groups, as `(start, stop)` in
group indices — the `e0/e1` scan of Go `IP.String`; fuel-driven, one group
consumed per step. -/
def bestZeroRunGo : Nat → List Nat → Nat → Nat × Nat → Nat × Nat
  | 0, _, _, best => best
  | _ + 1, [], _, best => best
  | fuel + 1, gs, i, best =>
    let r := zeroRun gs
    if 0 < r ∧ best.2 - best.1 < r then bestZeroRunGo fuel (gs.drop r) (i + r) (i, i + r)
    else bestZeroRunGo fuel gs.tail (i + 1) best

/-- Go `IP.String`'s zero-run compression choice: a run is used only when it
covers at least two groups. -/
def bestZeroRun (gs : List Nat) : Option (Nat × Nat) :=
  let b := bestZeroRunGo (gs.length + 1) gs 0 (0, 0)
  if b.2 - b.1 ≤ 1 then none else some b

/-- Assembly loop of Go `IP.String` for IPv6: groups in hex separated by
`':'`, with the chosen zero run printed as `::`. -/
def v6BuildGo : Nat → Nat → List Nat → Option (Nat × Nat) → String
  | 0, _, _, _ => ""
  | fuel + 1, i, gs, e =>
    if i ≥ 8 then ""
    else
      match e with
      | some (e0, e1) =>
        if i = e0 then
          "::" ++
            (if e1 ≥ 8 then ""
             else hexStr (gs.getD e1 0) ++ v6BuildGo fuel (e1 + 1) gs e)
        else
          (if 0 < i then ":" else "") ++ hexStr (gs.getD i 0) ++ v6BuildGo fuel (i + 1) gs e
      | none =>
        (if 0 < i then ":" else "") ++ hexStr (gs.getD i 0) ++ v6BuildGo fuel (i + 1) gs e

/-- Go `IP.String` for a 16-byte non-IPv4-mapped address. -/
def v6String (ip : List Nat) : String :=
  let gs := v6Groups ip
  v6BuildGo 9 0 gs (bestZeroRun gs)

/-- Go `IP.String`: IPv4-mapped addresses print as dotted decimal, the rest in
compressed IPv6 form. -/
def ipString (ip : List Nat) : String :=
  match to4 ip with
  | some [a, b, c, d] =>
    toString a ++ "." ++ toString b ++ "." ++ toString c ++ "." ++ toString d
  | _ => v6String ip

/-- Split at the last colon: host part and port part of Go `SplitHostPort`'s
index scan, or nothing when the string has no colon. -/
def splitLastColon (l : List Char) : Option (List Char × List Char) :=
  match splitAtFirst ':' l.reverse with
  | (_, none) => none
  | (rp, some rh) => some (rh.reverse, rp.reverse)

/-- The `AddrError` message format of Go `net`. -/
def addrErr (s : List Char) (msg : String) : String :=
  "address " ++ String.mk s ++ ": " ++ msg

/-- Go `net.SplitHostPort` (`net/ipsock.go`): the port starts after the last
colon; a leading `'['` requires the first `']'` to sit directly before that
colon and brackets are stripped from the host; otherwise the host may contain
no colon; stray brackets are rejected. -/
def splitHostPort (s : List Char) : Except String (List Char × List Char) :=
  match splitLastColon s with
  | none => .error (addrErr s "missing port in address")
  | some (pre, port) =>
    if s.head? = some '[' then
      match s.findIdx? (· = ']') with
      | none => .error (addrErr s "missing ']' in address")
      | some e =>
        if e + 1 = s.length then .error (addrErr s "missing port in address")
        else if e + 1 = pre.length then
          if '[' ∈ s.drop 1 then .error (addrErr s "unexpected '[' in address")
          else if ']' ∈ s.drop (e + 1) then .error (addrErr s "unexpected ']' in address")
          else .ok ((s.take e).drop 1, port)
        else if s.getD (e + 1) ' ' = ':' then .error (addrErr s "too many colons in address")
        else .error (addrErr s "missing port in address")
    else
      if ':' ∈ pre then .error (addrErr s "too many colons in address")
      else if '[' ∈ s then .error (addrErr s "unexpected '[' in address")
      else if ']' ∈ s then .error (addrErr s "unexpected ']' in address")
      else .ok (pre, port)

/-- Go `%q` on the plain strings appearing in this code base. -/
def fmtQ (s : String) : String :=
  "\"" ++ s ++ "\""

/-- `util.ValidateNameserverIpAndPort` (`pkg/dns/util/util.go`): a direct IP
literal is normalized to `(ip.String(), "53")`; otherwise the string is split
by `net.SplitHostPort`, the host must parse as an IP and the port must be an
integer in 1–65535, and `(host, port)` is returned unchanged. `vnipHostPort`
is the host/port half of that function. -/
def vnipHostPort (host port : List Char) : Except String (String × String) :=
  if (parseIP host).isNone then .error ("bad IP address: " ++ fmtQ (String.mk host))
  else
    match atoi port with
    | none => .error ("bad port number: " ++ fmtQ (String.mk port))
    | some p =>
      if p < 1 ∨ p > 65535 then .error ("bad port number: " ++ fmtQ (String.mk port))
      else .ok (String.mk host, String.mk port)

def ValidateNameserverIpAndPort (nameServer : String) : Except String (String × String) :=
  match parseIP nameServer.data with
  | some ip => .ok (ipString ip, "53")
  | none =>
    match splitHostPort nameServer.data with
    | .error e => .error e
    | .ok (host, port) => vnipHostPort host port

/-- `validation.IsValidIP` (k8s.io/apimachinery) reports no errors exactly when
`net.ParseIP` succeeds. -/
def isValidIP (l : List Char) : Bool :=
  (parseIP l).isSome

/-- The `Config` value object of `pkg/dns/config`. Go maps are embedded as
association lists; `TypeMeta` carries no behaviour and is omitted. -/
structure Config where
  Federations : List (String × String)
  StubDomains : List (String × List String)
  UpstreamNameservers : List String
deriving DecidableEq

/-- Body of `validateFederations`' loop: federation name and domain rules are
collaborator-defined (`pkg/dns/federation`, outside this layer) and passed in
as the opaque error-reporting predicates `vname` and `vdomain`. -/
def fedPairs (vname vdomain : String → Option String) :
    List (String × String) → Option String
  | [] => none
  | (name, domain) :: rest =>
    match vname name with
    | some e => some e
    | none =>
      match vdomain domain with
      | some e => some e
      | none => fedPairs vname vdomain rest

/-- `Config.validateFederations`. -/
def Config.validateFederations (vname vdomain : String → Option String)
    (config : Config) : Option String :=
  fedPairs vname vdomain config.Federations

/-- Body of `validateStubDomains`' inner loop over one nameserver string:
split at the first `':'`; a present port segment must parse as a `uint16`;
then the host segment must be a valid IP or the entire string a valid
DNS-1123 subdomain. -/
def validateStubNameserver (ns : String) : Option String :=
  match splitN2Colon ns.data with
  | [host, port] =>
    if (parseUint16 port).isNone then some ("invalid nameserver: " ++ fmtQ ns)
    else if ¬ isValidIP host ∧ ¬ isDNS1123Subdomain ns.data then
      some ("invalid nameserver: " ++ fmtQ ns)
    else none
  | [host] =>
    if ¬ isValidIP host ∧ ¬ isDNS1123Subdomain ns.data then
      some ("invalid nameserver: " ++ fmtQ ns)
    else none
  | _ => none

/-- The nameserver loop of `validateStubDomains` for one domain's list. -/
def stubNsList : List String → Option String
  | [] => none
  | ns :: rest =>
    match validateStubNameserver ns with
    | some e => some e
    | none => stubNsList rest

/-- The outer loop of `validateStubDomains`: each key must be a valid DNS-1123
subdomain, then its nameserver list is checked. -/
def stubEntries : List (String × List String) → Option String
  | [] => none
  | (domain, nsList) :: rest =>
    if ¬ isDNS1123Subdomain domain.data then some ("invalid domain name: " ++ fmtQ domain)
    else
      match stubNsList nsList with
      | some e => some e
      | none => stubEntries rest

/-- `Config.validateStubDomains`. -/
def Config.validateStubDomains (config : Config) : Option String :=
  stubEntries config.StubDomains

/-- The per-entry loop of `validateUpstreamNameserver`. -/
def upstreamList : List String → Option String
  | [] => none
  | nameServer :: rest =>
    match ValidateNameserverIpAndPort nameServer with
    | .error e => some e
    | .ok _ => upstreamList rest

/-- `Config.validateUpstreamNameserver`: at most three entries, each accepted
by `util.ValidateNameserverIpAndPort`. -/
def Config.validateUpstreamNameserver (config : Config) : Option String :=
  if config.UpstreamNameservers.length > 3 then
    some "upstreamNameserver cannot have more than three entries"
  else upstreamList config.UpstreamNameservers

/-- `Config.Validate`: federations, then stub domains, then upstream
nameservers, stopping at the first failing pass. -/
def Config.Validate (vname vdomain : String → Option String) (config : Config) :
    Option String :=
  match config.validateFederations vname vdomain with
  | some e => some e
  | none =>
    match config.validateStubDomains with
    | some e => some e
    | none => config.validateUpstreamNameserver

/-- The `DNSConfig` settings object of `pkg/dns/config`. Durations are
embedded as `Nat`. -/
structure DNSConfig where
  ClusterDomain : String
  KubeConfigFile : String
  KubeMasterURL : String
  InitialSyncTimeout : Nat
  HealthzPort : Int
  DNSBindAddress : String
  DNSPort : Int
  Federations : List (String × String)
  ConfigMapNs : String
  ConfigMap : String
  ConfigDir : String
  ConfigPeriod : Nat
  NameServers : String

/-- The backend selected by `NewConfigSync`: the three `Sync` constructors it
can call, with the arguments it passes them. -/
inductive SyncChoice where
  | configMapSync (ns name : String)
  | fileSync (dir : String) (period : Nat)
  | nopSync (conf : Config)
deriving DecidableEq

/-- Go `strings.Split(s, ",")`: segments between commas, `[""]` for the empty
string. -/
def splitOnComma : List Char → List (List Char)
  | [] => [[]]
  | c :: cs =>
    if c = ',' then [] :: splitOnComma cs
    else
      match splitOnComma cs with
      | r :: rs => (c :: r) :: rs
      | [] => [[c]]

/-- `NewConfigSync` (`pkg/dns/config`): `glog.Fatal` aborts the process, so
the ConfigMap-and-ConfigDir conflict is embedded as `none`; the unused
Kubernetes client argument is omitted. In the command-line-flags branch the
`Config` starts from Go zero values (empty maps/slices), takes the settings'
federation map, and splits the nameserver string on commas only when it is
nonempty. -/
def NewConfigSync (config : DNSConfig) : Option SyncChoice :=
  if config.ConfigMap ≠ "" ∧ config.ConfigDir ≠ "" then none
  else if config.ConfigMap ≠ "" then
    some (.configMapSync config.ConfigMapNs config.ConfigMap)
  else if config.ConfigDir ≠ "" then
    some (.fileSync config.ConfigDir config.ConfigPeriod)
  else
    some (.nopSync
      { Federations := config.Federations
        StubDomains := []
        UpstreamNameservers :=
          if config.NameServers.length > 0 then
            (splitOnComma config.NameServers.data).map String.mk
          else [] })

/-- The `Sync` interface as `StartConfigMapSync` uses it: `Once` yields the
initial `Config` or an error, `Periodic` the stream of later snapshots
(embedded as a list). -/
structure Sync where
  once : Except String Config
  periodic : List Config

/-- Observable actions of `StartConfigMapSync`, in order: a synchronous
invocation of the update callback, or the launch of the background delivery
loop on the periodic stream. -/
inductive StartEvent where
  | update (conf : Config)
  | launchLoop (stream : List Config)
deriving DecidableEq

/-- `StartConfigMapSync` (`pkg/dns/config`): a nil handle is an error; then
`Once` runs, its error being returned with nothing else done; on success the
update callback receives the initial config synchronously and only then the
periodic loop is launched, returning nil. The result pairs the returned error
with the ordered trace of observable actions. -/
def StartConfigMapSync (configSync : Option Sync) : Option String × List StartEvent :=
  match configSync with
  | none => (some "Invalid configmap specified", [])
  | some s =>
    match s.once with
    | .error e => (some e, [])
    | .ok initialConfig =>
      (none, [StartEvent.update initialConfig, StartEvent.launchLoop s.periodic])

/-- One label of the DNS-1123 subdomain syntax exactly as the specification's
words state it: 1–63 characters, lowercase alphanumerics and `-`, no leading
or trailing hyphen. Stated from the spec for comparison with the code's
`isDNS1123Subdomain`. -/
def specLabelOk (l : List Char) : Bool :=
  1 ≤ l.length && l.length ≤ 63 &&
    l.all (fun c => isLowerAlnum c || c = '-') &&
    (match l.head? with | some c => isLowerAlnum c | none => false) &&
    (match l.getLast? with | some c => isLowerAlnum c | none => false)

/-- DNS-1123 subdomain syntax exactly as the specification's words state it
(`lowercase alphanumerics, '-', '.', each label 1–63 chars, no
leading/trailing hyphen`): dot-separated labels, each `specLabelOk`. Stated
from the spec for comparison with the code's `isDNS1123Subdomain`. -/
def specDNS1123Subdomain (l : List Char) : Bool :=
  (l.splitOn '.').all specLabelOk

/-- The port-segment check of the stub-domain pass: vacuously true when the
nameserver string has no colon, otherwise the segment after the first colon
must parse as a `uint16`. -/
def stubPortOk (ns : String) : Bool :=
  match splitN2Colon ns.data with
  | [_, port] => (parseUint16 port).isSome
  | _ => true

/-- The host segment the stub-domain pass inspects: everything before the
first colon. -/
def hostSeg (ns : String) : List Char :=
  (splitN2Colon ns.data).headD []

theorem splitAtFirst_of_not_mem (sep : Char) (l : List Char) (h : sep ∉ l) :
    splitAtFirst sep l = (l, none) := by
  induction l with
  | nil => rfl
  | cons c cs ih =>
    have hc : ¬ c = sep := fun he => h (he ▸ List.mem_cons_self c cs)
    have hcs : sep ∉ cs := fun hm => h (List.mem_cons_of_mem _ hm)
    simp [splitAtFirst, hc, ih hcs]

theorem splitAtFirst_append (sep : Char) (a b : List Char) (h : sep ∉ a) :
    splitAtFirst sep (a ++ sep :: b) = (a, some b) := by
  induction a with
  | nil => simp [splitAtFirst]
  | cons c cs ih =>
    have hc : ¬ c = sep := fun he => h (he ▸ List.mem_cons_self c cs)
    have hcs : sep ∉ cs := fun hm => h (List.mem_cons_of_mem _ hm)
    simp [splitAtFirst, hc, ih hcs]

theorem splitAtFirst_none_fst (sep : Char) (l : List Char)
    (h : (splitAtFirst sep l).2 = none) : (splitAtFirst sep l).1 = l := by
  induction l with
  | nil => rfl
  | cons c cs ih =>
    by_cases hc : c = sep
    · simp [splitAtFirst, hc] at h
    · simp only [splitAtFirst, if_neg hc] at h ⊢
      simpa using ih h

theorem mem_decomp_first (sep : Char) (l : List Char) (h : sep ∈ l) :
    ∃ a b, l = a ++ sep :: b ∧ sep ∉ a := by
  induction l with
  | nil => cases h
  | cons c cs ih =>
    by_cases hc : c = sep
    · exact ⟨[], cs, by simp [hc], by simp⟩
    · have hcs : sep ∈ cs := by
        rcases List.mem_cons.mp h with he | hm
        · exact absurd he.symm hc
        · exact hm
      obtain ⟨a, b, rfl, hna⟩ := ih hcs
      refine ⟨c :: a, b, by simp, ?_⟩
      intro hm
      rcases List.mem_cons.mp hm with he | hm'
      · exact hc he.symm
      · exact hna hm'

theorem parseUint16_none_of_mem (l : List Char) (c : Char) (hm : c ∈ l)
    (hc : c.isDigit = false) : parseUint16 l = none := by
  have : l.all Char.isDigit = false := by
    rcases hb : l.all Char.isDigit with _ | _
    · rfl
    · have := (List.all_eq_true.mp hb) c hm
      rw [hc] at this
      cases this
  simp [parseUint16, this]

theorem dnsRun_colon_not_mem (l : List Char) :
    ∀ st, dnsRun st l = true → ':' ∉ l := by
  induction l with
  | nil => intro st _ hm; cases hm
  | cons c cs ih =>
    intro st h hm
    have hcol : ¬ isLowerAlnum ':' = true := by decide
    have hdot : ¬ ((':' : Char) = '.') := by decide
    have hhy : ¬ ((':' : Char) = '-') := by decide
    rcases List.mem_cons.mp hm with rfl | hm'
    · cases st <;> simp [dnsRun, hcol, hdot, hhy] at h
    · cases st with
      | start =>
        have h2 := (Bool.and_eq_true _ _).mp h
        exact ih .inside h2.2 hm'
      | inside =>
        by_cases h1 : c = '.'
        · rw [dnsRun, if_pos h1] at h
          exact ih .start h hm'
        · by_cases h2 : isLowerAlnum c = true
          · rw [dnsRun, if_neg h1, if_pos h2] at h
            exact ih .inside h hm'
          · by_cases h3 : c = '-'
            · rw [dnsRun, if_neg h1, if_neg h2, if_pos h3] at h
              exact ih .hyph h hm'
            · rw [dnsRun, if_neg h1, if_neg h2, if_neg h3] at h
              cases h
      | hyph =>
        by_cases h2 : isLowerAlnum c = true
        · rw [dnsRun, if_pos h2] at h
          exact ih .inside h hm'
        · by_cases h3 : c = '-'
          · rw [dnsRun, if_neg h2, if_pos h3] at h
            exact ih .hyph h hm'
          · rw [dnsRun, if_neg h2, if_neg h3] at h
            cases h

theorem isDNS1123_colon_not_mem (l : List Char)
    (h : isDNS1123Subdomain l = true) : ':' ∉ l := by
  have h2 := (Bool.and_eq_true _ _).mp h
  exact dnsRun_colon_not_mem l .start h2.2

theorem stubEntries_none_keys (l : List (String × List String))
    (h : stubEntries l = none) :
    ∀ k ns, (k, ns) ∈ l → isDNS1123Subdomain k.data = true := by
  induction l with
  | nil => intro k ns hm; cases hm
  | cons e rest ih =>
    obtain ⟨d, nsl⟩ := e
    intro k ns hm
    rcases hd : isDNS1123Subdomain d.data with _ | _
    · simp [stubEntries, hd] at h
    · rcases List.mem_cons.mp hm with he | hm'
      · cases he
        exact hd
      · rcases hns : stubNsList nsl with _ | e0
        · simp only [stubEntries, hd, hns] at h
          exact ih h k ns hm'
        · simp [stubEntries, hd, hns] at h

theorem length_pos_of_ne_empty (s : String) (h : s ≠ "") : 0 < s.length := by
  cases s with
  | mk l =>
    cases l with
    | nil => exact absurd rfl h
    | cons c cs => simp [String.length]

/-- C1: `NewConfigSync` is an exactly-one-of decision tree over the settings:
ConfigMap and ConfigDir both set is fatal (no handle); otherwise a set
ConfigMap name selects the ConfigMap backend, a set directory the directory
backend, and neither selects the static/no-op backend wrapping a `Config`
built from the settings' federation map and comma-split nameserver list. -/
theorem newConfigSync_decision (cfg : DNSConfig) :
    (cfg.ConfigMap ≠ "" → cfg.ConfigDir ≠ "" → NewConfigSync cfg = none) ∧
    (cfg.ConfigMap ≠ "" → cfg.ConfigDir = "" →
      NewConfigSync cfg = some (SyncChoice.configMapSync cfg.ConfigMapNs cfg.ConfigMap)) ∧
    (cfg.ConfigMap = "" → cfg.ConfigDir ≠ "" →
      NewConfigSync cfg = some (SyncChoice.fileSync cfg.ConfigDir cfg.ConfigPeriod)) ∧
    (cfg.ConfigMap = "" → cfg.ConfigDir = "" → cfg.NameServers ≠ "" →
      NewConfigSync cfg =
        some (SyncChoice.nopSync
          ⟨cfg.Federations, [],
            (splitOnComma cfg.NameServers.data).map String.mk⟩)) ∧
    (cfg.ConfigMap = "" → cfg.ConfigDir = "" → cfg.NameServers = "" →
      NewConfigSync cfg = some (SyncChoice.nopSync ⟨cfg.Federations, [], []⟩)) := by
  refine ⟨fun h1 h2 => ?_, fun h1 h2 => ?_, fun h1 h2 => ?_, fun h1 h2 h3 => ?_,
    fun h1 h2 h3 => ?_⟩
  · simp [NewConfigSync, h1, h2]
  · simp [NewConfigSync, h1, h2]
  · simp [NewConfigSync, h1, h2]
  · have hp : 0 < cfg.NameServers.length := length_pos_of_ne_empty _ h3
    simp [NewConfigSync, h1, h2, hp]
  · have hz : ¬ (0 < cfg.NameServers.length) := by rw [h3]; decide
    simp [NewConfigSync, h1, h2, hz]

/-- C1 witness: with both ConfigMap name and directory set no handle is
produced; with neither set the static backend wraps the federation map and
the comma-split nameserver list. -/
theorem newConfigSync_decision_witness :
    NewConfigSync
        ⟨"cluster.local.", "", "", 60, 8081, "0.0.0.0", 53, [], "kube-system",
          "kube-dns", "/etc/kube-dns/", 10, ""⟩ = none ∧
    NewConfigSync
        ⟨"cluster.local.", "", "", 60, 8081, "0.0.0.0", 53,
          [("myfed", "example.com")], "kube-system", "", "", 10,
          "8.8.8.8,8.8.4.4"⟩ =
      some (SyncChoice.nopSync
        ⟨[("myfed", "example.com")], [], ["8.8.8.8", "8.8.4.4"]⟩) := by
  constructor
  · exact (newConfigSync_decision _).1 (by decide) (by decide)
  · have h := (newConfigSync_decision
      ⟨"cluster.local.", "", "", 60, 8081, "0.0.0.0", 53,
        [("myfed", "example.com")], "kube-system", "", "", 10,
        "8.8.8.8,8.8.4.4"⟩).2.2.2.1 rfl rfl (by decide)
    rw [h]
    rfl

/-- C2: `Validate` runs exactly the three passes federations, stub domains,
upstream nameservers in that order, short-circuits on the first failing pass
returning its error, and returns nil iff all three passes succeed. -/
theorem validate_three_passes (vname vdomain : String → Option String) (c : Config) :
    (∀ e, c.validateFederations vname vdomain = some e →
      c.Validate vname vdomain = some e) ∧
    (c.validateFederations vname vdomain = none →
      ∀ e, c.validateStubDomains = some e → c.Validate vname vdomain = some e) ∧
    (c.validateFederations vname vdomain = none → c.validateStubDomains = none →
      c.Validate vname vdomain = c.validateUpstreamNameserver) ∧
    (c.Validate vname vdomain = none ↔
      c.validateFederations vname vdomain = none ∧ c.validateStubDomains = none ∧
        c.validateUpstreamNameserver = none) := by
  refine ⟨fun e he => ?_, fun hf e hs => ?_, fun hf hs => ?_, ?_⟩
  · simp [Config.Validate, he]
  · simp [Config.Validate, hf, hs]
  · simp [Config.Validate, hf, hs]
  · cases hf : c.validateFederations vname vdomain <;>
      cases hs : c.validateStubDomains <;>
        simp [Config.Validate, hf, hs]

/-- C2 witness: on a concrete configuration with passing federation
validators, a failing stub pass short-circuits `Validate` to the stub error. -/
theorem validate_three_passes_witness :
    Config.Validate (fun _ => none) (fun _ => none)
        ⟨[("myfed", "example.com")], [("UPPER.local", ["1.2.3.4"])], ["8.8.8.8"]⟩ =
      some ("invalid domain name: " ++ fmtQ "UPPER.local") :=
  (validate_three_passes (fun _ => none) (fun _ => none)
      ⟨[("myfed", "example.com")], [("UPPER.local", ["1.2.3.4"])], ["8.8.8.8"]⟩).2.1
    (by decide) _ (by decide)

/-- C7: a configuration with more than three upstream nameservers always
fails: the upstream pass returns the length error before looking at any
entry, and `Validate` never returns nil for such a configuration. -/
theorem upstream_length_cap (vname vdomain : String → Option String) (c : Config)
    (h : c.UpstreamNameservers.length > 3) :
    c.validateUpstreamNameserver =
      some "upstreamNameserver cannot have more than three entries" ∧
    (c.Validate vname vdomain).isSome = true := by
  have hu : c.validateUpstreamNameserver =
      some "upstreamNameserver cannot have more than three entries" := by
    simp [Config.validateUpstreamNameserver, h]
  refine ⟨hu, ?_⟩
  cases hf : c.validateFederations vname vdomain <;>
    cases hs : c.validateStubDomains <;>
      simp [Config.Validate, hf, hs, hu]

/-- C7 witness: four entries that are not even parseable are rejected with
the length error, before any per-entry check. -/
theorem upstream_length_cap_witness :
    Config.validateUpstreamNameserver ⟨[], [], ["", "", "", ""]⟩ =
      some "upstreamNameserver cannot have more than three entries" := by
  exact (upstream_length_cap (fun _ => none) (fun _ => none)
    ⟨[], [], ["", "", "", ""]⟩ (by decide)).1

/-- C8: `StartConfigMapSync` with a non-nil handle first runs the one-time
fetch; a fetch error is returned with no callback invocation and no loop
launch; on success the callback fires synchronously with the initial
configuration, then the loop is launched, and nil is returned. -/
theorem startConfigMapSync_start (s : Sync) :
    (∀ e, s.once = .error e → StartConfigMapSync (some s) = (some e, [])) ∧
    (∀ conf, s.once = .ok conf →
      StartConfigMapSync (some s) =
        (none, [StartEvent.update conf, StartEvent.launchLoop s.periodic])) := by
  refine ⟨fun e he => ?_, fun conf hc => ?_⟩
  · simp [StartConfigMapSync, he]
  · simp [StartConfigMapSync, hc]

/-- C8 witness: a failing fetch propagates its error with an empty trace; a
successful fetch produces the update event before the loop launch and a nil
error. -/
theorem startConfigMapSync_start_witness :
    StartConfigMapSync (some ⟨Except.error "boom", []⟩) = (some "boom", []) ∧
    StartConfigMapSync (some ⟨Except.ok ⟨[], [], ["8.8.8.8"]⟩, [⟨[], [], []⟩]⟩) =
      (none,
        [StartEvent.update ⟨[], [], ["8.8.8.8"]⟩,
          StartEvent.launchLoop [⟨[], [], []⟩]]) :=
  ⟨(startConfigMapSync_start ⟨Except.error "boom", []⟩).1 "boom" rfl,
    (startConfigMapSync_start ⟨Except.ok ⟨[], [], ["8.8.8.8"]⟩, [⟨[], [], []⟩]⟩).2
      ⟨[], [], ["8.8.8.8"]⟩ rfl⟩

/-- C10: a nil `Sync` handle makes `StartConfigMapSync` return the
"Invalid configmap specified" error with no callback invocation and no loop
launch. -/
theorem startConfigMapSync_nil :
    StartConfigMapSync none = (some "Invalid configmap specified", []) := rfl

/-- C5: given a passing port check, a stub-domain nameserver string is
accepted iff its host segment (before the first colon) is a valid IP or the
entire original string is a valid DNS-1123 subdomain; in particular every
DNS-1123-valid string is accepted, while the upstream pass rejects a
non-IP host such as "not-an-ip:53". -/
theorem stub_nameserver_accept_iff (ns : String) :
    (stubPortOk ns = true →
      (validateStubNameserver ns = none ↔
        (isValidIP (hostSeg ns) = true ∨ isDNS1123Subdomain ns.data = true))) ∧
    (isDNS1123Subdomain ns.data = true → validateStubNameserver ns = none) ∧
    (∃ e, ValidateNameserverIpAndPort "not-an-ip:53" = Except.error e) := by
  have main : stubPortOk ns = true →
      (validateStubNameserver ns = none ↔
        (isValidIP (hostSeg ns) = true ∨ isDNS1123Subdomain ns.data = true)) := by
    intro hp
    rcases h2 : splitAtFirst ':' ns.data with ⟨pre, o⟩
    cases o with
    | none =>
      have hpre : pre = ns.data := by
        have h3 := splitAtFirst_none_fst ':' ns.data (by rw [h2])
        rw [h2] at h3
        exact h3
      rw [hpre] at h2
      have hsn : splitN2Colon ns.data = [ns.data] := by simp [splitN2Colon, h2]
      rw [validateStubNameserver, hsn]
      cases hv : isValidIP ns.data <;> cases hd : isDNS1123Subdomain ns.data <;>
        simp [hostSeg, hsn, hv, hd]
    | some post =>
      have hsn : splitN2Colon ns.data = [pre, post] := by simp [splitN2Colon, h2]
      rw [stubPortOk, hsn] at hp
      obtain ⟨v, hv⟩ := Option.isSome_iff_exists.mp hp
      rw [validateStubNameserver, hsn]
      cases hvip : isValidIP pre <;> cases hd : isDNS1123Subdomain ns.data <;>
        simp [hostSeg, hsn, hvip, hd, hv]
  refine ⟨main, fun hd => ?_, ⟨"bad IP address: " ++ fmtQ "not-an-ip", rfl⟩⟩
  have hnc : ':' ∉ ns.data := isDNS1123_colon_not_mem _ hd
  have hp : stubPortOk ns = true := by
    rw [stubPortOk]
    simp [splitN2Colon, splitAtFirst_of_not_mem ':' ns.data hnc]
  exact (main hp).mpr (Or.inr hd)

/-- C5 witness: the bare hostname "not-an-ip" is accepted by the stub-domain
pass (DNS-1123 fallback), while "not-an-ip:53" — whose colon makes the whole
string DNS-1123-invalid — is not. -/
theorem stub_nameserver_accept_iff_witness :
    validateStubNameserver "not-an-ip" = none ∧
    ¬ validateStubNameserver "not-an-ip:53" = none := by
  constructor
  · exact (stub_nameserver_accept_iff "not-an-ip").2.1 (by decide)
  · intro h
    have h2 := ((stub_nameserver_accept_iff "not-an-ip:53").1 (by decide)).mp h
    revert h2
    decide

/-- C4 counterexample: the upstream pass does NOT reject IPv6 bracket
notation — `ValidateNameserverIpAndPort` strips the brackets via strict
host:port splitting and accepts "[2001:db8::1]:53", so a configuration whose
upstream list contains it validates cleanly. -/
theorem upstream_accepts_bracketed_ipv6 :
    ValidateNameserverIpAndPort "[2001:db8::1]:53" =
      Except.ok ("2001:db8::1", "53") ∧
    Config.Validate (fun _ => none) (fun _ => none)
      ⟨[], [], ["[2001:db8::1]:53"]⟩ = none := by
  constructor
  · rfl
  · rfl

/-- C4 (amended): only the stub-domain pass rejects IPv6 bracket notation —
for every "[addr]:port" whose bracketed address contains a colon (as every
IPv6 literal does), the first-colon split leaves a port segment containing
']' which fails the uint16 parse. -/
theorem stub_rejects_bracketed_ipv6 (addr port : String) (h : ':' ∈ addr.data) :
    validateStubNameserver ("[" ++ addr ++ "]:" ++ port) =
      some ("invalid nameserver: " ++ fmtQ ("[" ++ addr ++ "]:" ++ port)) := by
  obtain ⟨a, b, hab, hna⟩ := mem_decomp_first ':' addr.data h
  have hdata : ("[" ++ addr ++ "]:" ++ port).data =
      ('[' :: a) ++ ':' :: (b ++ ']' :: ':' :: port.data) := by
    rw [String.data_append, String.data_append, String.data_append, hab]
    simp
  have hna2 : ':' ∉ ('[' :: a) := by
    intro hm
    rcases List.mem_cons.mp hm with he | hm'
    · exact absurd he (by decide)
    · exact hna hm'
  have hsf := splitAtFirst_append ':' ('[' :: a) (b ++ ']' :: ':' :: port.data) hna2
  have hsn : splitN2Colon ("[" ++ addr ++ "]:" ++ port).data =
      ['[' :: a, b ++ ']' :: ':' :: port.data] := by
    rw [splitN2Colon, hdata, hsf]
  have hpu : parseUint16 (b ++ ']' :: ':' :: port.data) = none :=
    parseUint16_none_of_mem _ ']' (by simp) (by decide)
  rw [validateStubNameserver, hsn]
  simp [hpu]

/-- C4 (amended) witness: the concrete bracketed IPv6 nameserver
"[2001:db8::1]:53" is rejected by the stub-domain pass. -/
theorem stub_rejects_bracketed_ipv6_witness :
    validateStubNameserver "[2001:db8::1]:53" =
      some ("invalid nameserver: " ++ fmtQ "[2001:db8::1]:53") :=
  stub_rejects_bracketed_ipv6 "2001:db8::1" "53" (by decide)

/-- C9 counterexample: the claim's DNS-1123 syntax limits each label to 63
characters, but the code's check does not — a stub-domain key with a 64-'a'
label violates the claimed syntax yet `Validate` returns nil. -/
theorem stub_key_long_label_accepted :
    specDNS1123Subdomain ((String.mk (List.replicate 64 'a')) ++ ".b").data = false ∧
    Config.Validate (fun _ => none) (fun _ => none)
      ⟨[], [((String.mk (List.replicate 64 'a')) ++ ".b", ["1.2.3.4"])], []⟩ =
      none := by
  constructor
  · decide
  · decide

/-- C9 (amended): for every configuration containing a stub-domain key that
fails the code's DNS-1123 subdomain check (lowercase alphanumerics, '-', '.',
nonempty labels with no leading/trailing hyphen, total length at most 253 —
no per-label 63-character limit), `Validate` returns an error; when the
preceding checks pass and the key is the first offender the error names it,
as for "UPPER.local". -/
theorem validate_rejects_invalid_stub_key (vname vdomain : String → Option String)
    (c : Config) (key : String) (nsl nsl2 : List String)
    (hmem : (key, nsl) ∈ c.StubDomains)
    (hbad : isDNS1123Subdomain key.data = false) :
    (c.Validate vname vdomain).isSome = true ∧
    Config.Validate vname vdomain ⟨[], [("UPPER.local", nsl2)], []⟩ =
      some ("invalid domain name: " ++ fmtQ "UPPER.local") := by
  constructor
  · cases hf : c.validateFederations vname vdomain with
    | some e => simp [Config.Validate, hf]
    | none =>
      cases hs : c.validateStubDomains with
      | some e => simp [Config.Validate, hf, hs]
      | none =>
        rw [Config.validateStubDomains] at hs
        have h2 := stubEntries_none_keys c.StubDomains hs key nsl hmem
        rw [hbad] at h2
        cases h2
  · have hu : isDNS1123Subdomain ("UPPER.local").data = false := by decide
    simp [Config.Validate, Config.validateFederations, fedPairs,
      Config.validateStubDomains, stubEntries, hu]

/-- C9 (amended) witness: a configuration whose only stub-domain key is
"UPPER.local" fails validation. -/
theorem validate_rejects_invalid_stub_key_witness :
    (Config.Validate (fun _ => none) (fun _ => none)
      ⟨[], [("UPPER.local", ["1.2.3.4"])], []⟩).isSome = true :=
  (validate_rejects_invalid_stub_key (fun _ => none) (fun _ => none)
    ⟨[], [("UPPER.local", ["1.2.3.4"])], []⟩ "UPPER.local" ["1.2.3.4"] ["1.2.3.4"]
    (by decide) (by decide)).1

/-- C3: `ValidateNameserverIpAndPort` accepts a direct IP literal as
`(ip, "53")` with no further checks; otherwise it succeeds iff strict
host:port splitting succeeds, the host parses as an IP, and the port is an
integer strictly within 1–65535; "10.0.0.1" and "10.0.0.1:5353" are accepted
and "10.0.0.1:70000" is rejected. -/
theorem validateNameserverIpAndPort_cases (s : String) :
    (∀ ip, parseIP s.data = some ip →
      ValidateNameserverIpAndPort s = Except.ok (ipString ip, "53")) ∧
    (parseIP s.data = none →
      ((∃ v, ValidateNameserverIpAndPort s = Except.ok v) ↔
        (∃ host port, splitHostPort s.data = Except.ok (host, port) ∧
          (parseIP host).isSome = true ∧
          ∃ n : Int, atoi port = some n ∧ 1 ≤ n ∧ n ≤ 65535))) ∧
    ValidateNameserverIpAndPort "10.0.0.1" = Except.ok ("10.0.0.1", "53") ∧
    ValidateNameserverIpAndPort "10.0.0.1:5353" = Except.ok ("10.0.0.1", "5353") ∧
    (∃ e, ValidateNameserverIpAndPort "10.0.0.1:70000" = Except.error e) := by
  refine ⟨fun ip hip => ?_, fun hn => ?_, rfl, rfl,
    ⟨"bad port number: " ++ fmtQ "70000", rfl⟩⟩
  · simp [ValidateNameserverIpAndPort, hip]
  · cases hsp : splitHostPort s.data with
    | error e => simp [ValidateNameserverIpAndPort, hn, hsp]
    | ok hp =>
      obtain ⟨host, port⟩ := hp
      cases hpi : parseIP host with
      | none => simp [ValidateNameserverIpAndPort, vnipHostPort, hn, hsp, hpi]
      | some ip2 =>
        cases hat : atoi port with
        | none => simp [ValidateNameserverIpAndPort, vnipHostPort, hn, hsp, hpi, hat]
        | some n =>
          by_cases hr : n < 1 ∨ n > 65535
          · simp only [ValidateNameserverIpAndPort, vnipHostPort, hn, hsp, hpi, hat,
              Option.isNone_some, Bool.false_eq_true, if_false, if_pos hr]
            constructor
            · rintro ⟨v, hv⟩
              cases hv
            · rintro ⟨h2, p2, he, _, n2, hn2, h1, h65⟩
              rw [Except.ok.injEq] at he
              obtain ⟨rfl, rfl⟩ := Prod.mk.injEq .. ▸ he
              rw [hat] at hn2
              rw [Option.some.injEq] at hn2
              subst hn2
              omega
          · simp only [ValidateNameserverIpAndPort, vnipHostPort, hn, hsp, hpi, hat,
              Option.isNone_some, Bool.false_eq_true, if_false, if_neg hr]
            constructor
            · intro _
              exact ⟨host, port, rfl, by simp [hpi], n, hat, by omega, by omega⟩
            · intro _
              exact ⟨(String.mk host, String.mk port), rfl⟩

/-- C3 witness: the direct-IP branch at the concrete input "10.0.0.1". -/
theorem validateNameserverIpAndPort_cases_witness :
    ValidateNameserverIpAndPort "10.0.0.1" =
      Except.ok (ipString (v4in6 [10, 0, 0, 1]), "53") :=
  (validateNameserverIpAndPort_cases "10.0.0.1").1 (v4in6 [10, 0, 0, 1]) rfl

theorem all_digit_not_mem (l : List Char) (h : l.all Char.isDigit = true)
    (c : Char) (hc : c.isDigit = false) : c ∉ l := by
  intro hm
  have h2 := List.all_eq_true.mp h c hm
  rw [hc] at h2
  cases h2

theorem data_hostport (p : String) :
    ("1.2.3.4:" ++ p).data = ['1', '.', '2', '.', '3', '.', '4'] ++ ':' :: p.data := by
  rw [String.data_append]
  rfl

theorem parseIP_hostport_none (p : String) :
    parseIP ("1.2.3.4:" ++ p).data = none := by
  rw [data_hostport]
  rfl

theorem atoi_digits (l : List Char) (hne : l ≠ []) (hdig : l.all Char.isDigit = true) :
    atoi l =
      if (digitsVal l : Int) ≤ 2 ^ 63 - 1 then some (digitsVal l : Int) else none := by
  cases l with
  | nil => exact absurd rfl hne
  | cons c cs =>
    have hc : c.isDigit = true := List.all_eq_true.mp hdig c (List.mem_cons_self c cs)
    have hm : ¬ ((c :: cs).head? = some '-') := by
      intro he
      rw [List.head?_cons, Option.some.injEq] at he
      subst he
      exact absurd hc (by decide)
    have hp : ¬ ((c :: cs).head? = some '+') := by
      intro he
      rw [List.head?_cons, Option.some.injEq] at he
      subst he
      exact absurd hc (by decide)
    have hn : atoiNat (c :: cs) = some (digitsVal (c :: cs)) := by
      simp [atoiNat, hdig]
    rw [atoi, if_neg hm, if_neg hp, hn]

theorem splitHostPort_digits (pd : List Char) (hdig : pd.all Char.isDigit = true) :
    splitHostPort (['1', '.', '2', '.', '3', '.', '4'] ++ ':' :: pd) =
      Except.ok (['1', '.', '2', '.', '3', '.', '4'], pd) := by
  have hcol : ':' ∉ pd := all_digit_not_mem pd hdig ':' (by decide)
  have hlb : '[' ∉ pd := all_digit_not_mem pd hdig '[' (by decide)
  have hrb : ']' ∉ pd := all_digit_not_mem pd hdig ']' (by decide)
  have hrevc : ':' ∉ pd.reverse := fun hm => hcol (List.mem_reverse.mp hm)
  have hrev : (['1', '.', '2', '.', '3', '.', '4'] ++ ':' :: pd).reverse =
      pd.reverse ++ ':' :: ['4', '.', '3', '.', '2', '.', '1'] := by
    simp
  have hslc : splitLastColon
        ('1' :: '.' :: '2' :: '.' :: '3' :: '.' :: '4' :: ':' :: pd) =
      some (['1', '.', '2', '.', '3', '.', '4'], pd) := by
    show splitLastColon (['1', '.', '2', '.', '3', '.', '4'] ++ ':' :: pd) = _
    rw [splitLastColon, hrev, splitAtFirst_append ':' _ _ hrevc]
    simp
  simp [splitHostPort, hslc, hcol, hlb, hrb]

theorem vnip_digits_iff (p : String) (hne : p.data ≠ [])
    (hdig : p.data.all Char.isDigit = true) :
    (∃ v, ValidateNameserverIpAndPort ("1.2.3.4:" ++ p) = Except.ok v) ↔
      (1 ≤ digitsVal p.data ∧ digitsVal p.data ≤ 65535) := by
  have hip := parseIP_hostport_none p
  have hsp : splitHostPort ("1.2.3.4:" ++ p).data =
      Except.ok (['1', '.', '2', '.', '3', '.', '4'], p.data) := by
    rw [data_hostport]
    exact splitHostPort_digits p.data hdig
  have hpi : (parseIP ['1', '.', '2', '.', '3', '.', '4']).isNone = false := rfl
  have hat := atoi_digits p.data hne hdig
  by_cases h63 : (digitsVal p.data : Int) ≤ 2 ^ 63 - 1
  · rw [if_pos h63] at hat
    by_cases hin : (digitsVal p.data : Int) < 1 ∨ (digitsVal p.data : Int) > 65535
    · simp only [ValidateNameserverIpAndPort, hip, hsp, vnipHostPort, hpi,
        Bool.false_eq_true, if_false, hat, if_pos hin]
      constructor
      · rintro ⟨v, hv⟩
        cases hv
      · intro h
        exfalso
        omega
    · simp only [ValidateNameserverIpAndPort, hip, hsp, vnipHostPort, hpi,
        Bool.false_eq_true, if_false, hat, if_neg hin]
      constructor
      · intro _
        constructor <;> omega
      · intro _
        exact ⟨_, rfl⟩
  · rw [if_neg h63] at hat
    simp only [ValidateNameserverIpAndPort, hip, hsp, vnipHostPort, hpi,
      Bool.false_eq_true, if_false, hat]
    constructor
    · rintro ⟨v, hv⟩
      cases hv
    · intro h
      exfalso
      omega

/-- C6: the stub-domain pass splits each nameserver at the first colon only;
a present port segment is accepted iff it parses as a `uint16` (0–65535, so
port 0 passes), while the upstream pass accepts a digit port iff its value is
in 1–65535 — on digit ports the two checks differ exactly at value 0, as
"1.2.3.4:0" shows concretely. -/
theorem stub_port_vs_upstream (ns host port p : String) :
    (':' ∉ host.data →
      splitN2Colon (host ++ ":" ++ port).data = [host.data, port.data]) ∧
    (∀ h2 p2, splitN2Colon ns.data = [h2, p2] → parseUint16 p2 = none →
      validateStubNameserver ns = some ("invalid nameserver: " ++ fmtQ ns)) ∧
    (p.data ≠ [] → p.data.all Char.isDigit = true →
      (((parseUint16 p.data).isSome = true) ↔ digitsVal p.data ≤ 65535) ∧
      ((∃ v, ValidateNameserverIpAndPort ("1.2.3.4:" ++ p) = Except.ok v) ↔
        (1 ≤ digitsVal p.data ∧ digitsVal p.data ≤ 65535))) ∧
    validateStubNameserver "1.2.3.4:0" = none ∧
    (∃ e, ValidateNameserverIpAndPort "1.2.3.4:0" = Except.error e) := by
  refine ⟨fun hc => ?_, fun h2 p2 hsn hpu => ?_,
    fun hne hdig => ⟨?_, vnip_digits_iff p hne hdig⟩, rfl,
    ⟨"bad port number: " ++ fmtQ "0", rfl⟩⟩
  · have hd : (host ++ ":" ++ port).data = host.data ++ ':' :: port.data := by
      rw [String.data_append, String.data_append]
      simp
    rw [hd, splitN2Colon, splitAtFirst_append ':' _ _ hc]
  · rw [validateStubNameserver, hsn]
    simp [hpu]
  · simp [parseUint16, hne, hdig]

/-- C6 witness: concrete ports — "1.2.3.4:0" passes the stub check and fails
the upstream check, while port "53" passes both sides' numeric bounds. -/
theorem stub_port_vs_upstream_witness :
    splitN2Colon ("1.2.3.4" ++ ":" ++ "0:extra").data = ["1.2.3.4".data, "0:extra".data] ∧
    (∃ v, ValidateNameserverIpAndPort ("1.2.3.4:" ++ "53") = Except.ok v) := by
  constructor
  · exact (stub_port_vs_upstream "" "1.2.3.4" "0:extra" "").1 (by decide)
  · exact ((stub_port_vs_upstream "" "" "" "53").2.2.1 (by decide) (by decide)).2.mpr
      (by constructor <;> decide)

end KubeDNS
